import Mathlib

/-!
Verification of the Kettle Updater orchestrator (src/pico_updater.py).

The Python source is shallowly embedded: every external effect (network
download, zip extraction, filesystem probes, the mpremote tool, serial-port
enumeration) is an input supplied through an environment record, and each
Python function becomes a total Lean function over that environment whose
control flow mirrors the source line by line.  Python strings are `String`
where only equality matters and `List Char` where character-level operations
(suffix stripping, substring search, lowercasing) are involved.
-/

namespace KettleUpdater

/-! ### Python-string model for repository-reference normalization
(`download_github_zip`, src lines 122-126). -/

/-- The version-control suffix ".git" stripped at src line 122-123. -/
def gitSuf : List Char := ['.', 'g', 'i', 't']

/-- The SSH-style marker "git@github.com:" tested at src line 124. -/
def sshPre : List Char := ['g', 'i', 't', '@', 'g', 'i', 't', 'h', 'u', 'b', '.', 'c', 'o', 'm', ':']

/-- `sshPre` without its first character; used to step the replace engine. -/
def sshTail : List Char := ['i', 't', '@', 'g', 'i', 't', 'h', 'u', 'b', '.', 'c', 'o', 'm', ':']

/-- The web-reference replacement "https://github.com/" written at src line 125. -/
def webPre : List Char := ['h', 't', 't', 'p', 's', ':', '/', '/', 'g', 'i', 't', 'h', 'u', 'b', '.', 'c', 'o', 'm', '/']

/-- Python `s.endswith(suf)`. -/
def pyEndsWith (suf s : List Char) : Bool := suf.isSuffixOf s

/-- Python `pat in s` (substring containment), written structurally. -/
def pyIn (pat : List Char) : List Char → Bool
  | [] => pat.isEmpty
  | c :: cs => pat.isPrefixOf (c :: cs) || pyIn pat cs

/-- src 122-123: `if repo_url.endswith(".git"): repo_url = repo_url[:-4]`. -/
def stripGit (s : List Char) : List Char :=
  if pyEndsWith gitSuf s then s.take (s.length - 4) else s

/-- Engine of Python `s.replace("git@github.com:", "https://github.com/")`:
left-to-right, non-overlapping, every occurrence.  The fuel argument (always
instantiated with the length of the scanned list, which bounds the number of
steps) keeps the recursion structural so that concrete runs reduce. -/
def replaceSshAux : Nat → List Char → List Char
  | 0, s => s
  | _ + 1, [] => []
  | fuel + 1, c :: cs =>
    if sshPre.isPrefixOf (c :: cs) then webPre ++ replaceSshAux fuel (cs.drop 14)
    else c :: replaceSshAux fuel cs

/-- Python `s.replace("git@github.com:", "https://github.com/")`. -/
def replaceSsh (s : List Char) : List Char := replaceSshAux s.length s

/-- src 124-125: the SSH-style rewrite, guarded by `startswith`. -/
def sshRewrite (s : List Char) : List Char :=
  if sshPre.isPrefixOf s then replaceSsh s else s

/-- src 126: `repo_url.rstrip("/")`. -/
def rstripSlash (s : List Char) : List Char :=
  (s.reverse.dropWhile (fun c => c == '/')).reverse

/-- The whole normalization block of `download_github_zip` (src 122-126):
strip a trailing ".git", rewrite an SSH-style reference to the web form,
strip trailing slashes — in that order. -/
def normalize_repo (s : List Char) : List Char :=
  rstripSlash (sshRewrite (stripGit s))

/-! ### Worker-run model (`KettleUpdaterGUI.worker`, src 296-357, and
`download_github_zip`, src 129-149).

The environment holds the outcome of every external step of one run.  The
fields `devicePreListing`/`devicePostListing` describe the device-side
directory state before and after the sync: they are part of the world a
verifying orchestrator would query, and the embedding records whether the
code ever reads them. -/

/-- Terminal outcome of one worker run as the code distinguishes them:
`doneOk` is the rc = 0 success branch (src 326-329), `syncFailed` the
nonzero-rc branch (src 330-340), `exnFailed` the exception handler
(src 342-347). -/
inductive Outcome
  | doneOk
  | syncFailed
  | exnFailed
deriving DecidableEq

/-- Device operations the worker can issue through mpremote.  The source only
ever issues a recursive sync; a listing operation is included in the type so
that its absence from every trace is expressible. -/
inductive DevOp
  | mpremoteSync
  | mpremoteLs
deriving DecidableEq

structure RunEnv where
  /-- the archive download (src 132-133) succeeds -/
  downloadOk : Bool
  /-- the zip extraction (src 139-140) succeeds -/
  extractOk : Bool
  /-- names of the top-level directories present after extraction (src 145) -/
  topDirs : List String
  /-- requested sub-path; `none` models the empty GUI field (src 287, 317) -/
  subfolder : Option String
  /-- `os.path.isdir(repo_root/subfolder)` (src 319) -/
  subfolderPresent : Bool
  /-- status code reported by the sync invocation (src 324) -/
  syncRc : Int
  /-- device directory listing before the sync (never queried by the code) -/
  devicePreListing : List String
  /-- device directory listing after the sync (never queried by the code) -/
  devicePostListing : List String
deriving DecidableEq

structure RunResult where
  outcome : Outcome
  /-- message of the RuntimeError caught at src 342, if one was raised -/
  errMsg : Option String
  /-- device operations performed, in order -/
  devOps : List DevOp
  /-- the ephemeral working directory still exists after cleanup (src 349-354) -/
  tmpdirLeft : Bool
  /-- local directory handed to the sync invocation, if one was issued -/
  syncPath : Option String
deriving DecidableEq

/-- Message raised at src 147. -/
def layoutErrMsg : String := "Downloaded zip did not contain expected repository files."

/-- Message raised at src 320; the source encloses the name in quotes,
elided here. -/
def subfolderErrMsg (sub : String) : String :=
  "Subfolder " ++ sub ++ " not found in the repo."

/-- `download_github_zip` (src 129-149) after the normalization block: the
download and extraction failure handlers delete the fresh temporary
directory before re-raising (src 135, 142), but the zero-top-level-directory
branch raises at src 147 with the directory still on disk.  An error carries
the message and whether the temporary directory still exists; success
carries the resolved root (`entries[0]`, src 148). -/
def download_github_zip (env : RunEnv) : Except (String × Bool) String :=
  if env.downloadOk = false then .error ("Failed to download repo zip", false)
  else if env.extractOk = false then .error ("Failed to extract repo zip", false)
  else
    match env.topDirs with
    | [] => .error (layoutErrMsg, true)
    | d :: _ => .ok d

/-- The sync stage of the worker (src 323-340): one mpremote sync against
`path`, then the rc = 0 test.  The worker variable `tmpdir` is set on this
path, so the cleanup at src 349-354 removes the directory. -/
def runSync (env : RunEnv) (path : String) : RunResult :=
  { outcome := if env.syncRc = 0 then .doneOk else .syncFailed
    errMsg := none
    devOps := [.mpremoteSync]
    tmpdirLeft := false
    syncPath := some path }

/-- src 316-321: resolve the sync root, failing when a requested subfolder is
absent (the RuntimeError is caught at src 342; `tmpdir` is already set, so
cleanup removes the directory). -/
def afterFetch (env : RunEnv) (root : String) : RunResult :=
  match env.subfolder with
  | some sub =>
    if env.subfolderPresent then runSync env (root ++ "/" ++ sub)
    else
      { outcome := .exnFailed
        errMsg := some (subfolderErrMsg sub)
        devOps := []
        tmpdirLeft := false
        syncPath := none }
  | none => runSync env root

/-- `KettleUpdaterGUI.worker` (src 296-357).  When `download_github_zip`
raises, the tuple assignment at src 314 never happens, the worker-local
`tmpdir` is still `None`, and the cleanup at src 351 skips deletion — the
directory survives exactly when the fetch left it on disk. -/
def worker (env : RunEnv) : RunResult :=
  match download_github_zip env with
  | .error (msg, tmpLeft) =>
    { outcome := .exnFailed
      errMsg := some msg
      devOps := []
      tmpdirLeft := tmpLeft
      syncPath := none }
  | .ok root => afterFetch env root

/-- The three-way outcome the specification describes (§4.5 Classifying). -/
inductive SpecOutcome
  | failed
  | doneChanged
  | doneUnchanged
deriving DecidableEq

/-- The outcome rule exactly as the specification states it: with
`added = post − pre` and `removed = pre − post`, nonzero status is Failed,
a nonempty diff is Done(Changed), an empty diff is Done(Unchanged).
This definition follows the claim wording and exists to be compared with
the code-side `worker`. -/
def specClassify (rc : Int) (pre post : List String) : SpecOutcome :=
  if rc ≠ 0 then .failed
  else if post.filter (fun x => !(pre.contains x)) ≠ [] ∨
          pre.filter (fun x => !(post.contains x)) ≠ [] then .doneChanged
  else .doneUnchanged

/-- A run with sync status 0 whose device listings grow by one file. -/
def envChangedRun : RunEnv :=
  { downloadOk := true
    extractOk := true
    topDirs := ["repo-main"]
    subfolder := none
    subfolderPresent := false
    syncRc := 0
    devicePreListing := ["a.py"]
    devicePostListing := ["a.py", "b.py"] }

/-- The same run with identical pre and post device listings. -/
def envUnchangedRun : RunEnv :=
  { envChangedRun with devicePostListing := ["a.py"] }

/-- A run whose downloaded zip extracts to zero top-level directories. -/
def envLayoutRun : RunEnv :=
  { envChangedRun with topDirs := [] }

/-- A run whose archive download fails. -/
def envDownloadFailRun : RunEnv :=
  { envChangedRun with downloadOk := false }

/-- A run requesting a subfolder that the extracted tree does not contain. -/
def envSubMissingRun : RunEnv :=
  { envChangedRun with subfolder := some "firmware/v2", subfolderPresent := false }

/-! ### Device locator (`detect_kettle_ports`, src 90-115) and port choice
(src 302-311, 203). -/

/-- One enumerated serial port: connection identifier plus the descriptor
fields the heuristic inspects.  Reading `vid` can raise in the source
(src 100-104); the handler collapses that to `None`, so an `Option` field
is the faithful shape.  `None` descriptor fields model both `None` values
and fields absent from the platform enumeration. -/
structure PortInfo where
  device : List Char
  vid : Option Nat
  description : Option (List Char)
  product : Option (List Char)
  manufacturer : Option (List Char)
deriving DecidableEq

/-- The fixed known-good vendor-id set (src 107). -/
def kettleVids : List Nat := [0x2E8A, 0x1D50, 0x10C4, 0x0403]

/-- The fixed keyword set (src 110). -/
def kettleKeywords : List (List Char) :=
  ["kettle".data, "pico".data, "raspberry".data, "rp2040".data,
   "usb serial".data, "usb-serial".data]

/-- src 105: `" ".join(filter(None, [p.description, p.product, p.manufacturer])).lower()`.
`filter(None, ...)` drops absent and empty fields; the join is then
lowercased. -/
def portDesc (p : PortInfo) : List Char :=
  (List.intercalate [' ']
      ((([p.description, p.product, p.manufacturer].filterMap id).filter
        (fun s => !s.isEmpty)))).map Char.toLower

/-- src 110: `any(k in desc for k in (...))`. -/
def kwHit (p : PortInfo) : Bool :=
  kettleKeywords.any (fun k => pyIn k (portDesc p))

/-- The candidate loop of `detect_kettle_ports` (src 99-112): vendor-id test
first, `continue` on a hit, keyword test otherwise. -/
def detectLoop : List PortInfo → List (List Char)
  | [] => []
  | p :: ps =>
    match p.vid with
    | some v =>
      if kettleVids.contains v then p.device :: detectLoop ps
      else if kwHit p then p.device :: detectLoop ps
      else detectLoop ps
    | none => if kwHit p then p.device :: detectLoop ps else detectLoop ps

/-- `detect_kettle_ports` (src 90-115): the enumeration itself may fail
(`list_ports` missing, src 96-97, or `comports()` raising, src 113-114);
both produce the empty list. -/
def detect_kettle_ports (enum : Except Unit (List PortInfo)) : List (List Char) :=
  match enum with
  | .error _ => []
  | .ok ports => detectLoop ports

/-- The inclusion criterion as the claim states it: vendor id in the fixed
known-good set, or otherwise a keyword occurring in the case-folded
concatenated description.  This definition follows the claim wording and
exists to be compared with the code-side `detectLoop`. -/
def specPortCriterion (p : PortInfo) : Bool :=
  (match p.vid with
   | some v => kettleVids.contains v
   | none => false) || kwHit p

/-- src 303-310: the worker always takes the first detected port, `None`
otherwise. -/
def choose_port (ports : List (List Char)) : Option (List Char) := ports.head?

/-- src 203: `target = "auto" if port is None else port`. -/
def sync_target (port : Option (List Char)) : List Char := port.getD "auto".data

/-! ### Audit logger (`get_log_dir` src 34-52, `write_log` src 61-79,
`append_to_log` src 81-86). -/

/-- The one Python exception shape the logging model needs. -/
inductive PyExn
  | ioError
deriving DecidableEq

/-- A fallible filesystem call: succeeds or raises. -/
def pyCall (ok : Bool) : Except PyExn Unit :=
  if ok then .ok () else .error .ioError

/-- `{prefix}_{ts}.log` inside a directory (`new_log_path`, src 56-59). -/
def new_log_path (logDir pre ts : String) : String :=
  logDir ++ "/" ++ pre ++ "_" ++ ts ++ ".log"

/-- Per-path success of the filesystem operations `get_log_dir` performs. -/
structure LogDirEnv where
  osIsNT : Bool
  makedirsOk : String → Bool
  openWriteOk : String → Bool
  removeOk : String → Bool

/-- The fixed well-known system location used on Windows (src 38). -/
def winLogDir : String := "C:\\kettle_updater_logs"

/-- The per-user directory (src 40, 50): `~/.kettle_updater_logs`. -/
def userLogDir : String := "HOME/.kettle_updater_logs"

/-- A process-temporary directory, for stating that `get_log_dir` never
selects one (the temporary directory appears only in `write_log`). -/
def tmpDirPath : String := "TMP"

/-- src 37-40: the preferred location is the Windows path on nt and the
per-user path elsewhere. -/
def preferredDir (env : LogDirEnv) : String :=
  if env.osIsNT then winLogDir else userLogDir

/-- The try block of `get_log_dir` (src 42-48): makedirs, write the probe
file, remove it, return the preferred directory; any failure raises out of
the block (each `match` propagates the first error, as Python sequencing
does). -/
def getLogDirProbe (env : LogDirEnv) (preferred : String) : Except PyExn String :=
  match pyCall (env.makedirsOk preferred) with
  | .error e => .error e
  | .ok _ =>
    match pyCall (env.openWriteOk (preferred ++ "/.write_test")) with
    | .error e => .error e
    | .ok _ =>
      match pyCall (env.removeOk (preferred ++ "/.write_test")) with
      | .error e => .error e
      | .ok _ => .ok preferred

/-- `get_log_dir` (src 34-52): on any probe failure the except branch
(src 49-52) runs makedirs on the per-user directory and returns it with no
write-probe; a failure of that makedirs propagates out of the function. -/
def get_log_dir (env : LogDirEnv) : Except PyExn String :=
  match getLogDirProbe env (preferredDir env) with
  | .ok p => .ok p
  | .error _ =>
    match pyCall (env.makedirsOk userLogDir) with
    | .ok _ => .ok userLogDir
    | .error e => .error e

/-- Environment in which `get_log_dir` passes the preferred-directory probe
everywhere except the write step, and the per-user directory can be created
but is itself unwritable. -/
def envLogDirProbeFail : LogDirEnv :=
  { osIsNT := true
    makedirsOk := fun _ => true
    openWriteOk := fun _ => false
    removeOk := fun _ => true }

/-- Success of the two file creations `write_log` attempts and of the open
inside `append_to_log`. -/
structure LogIOEnv where
  logDir : String
  tmpDir : String
  ts : String
  primaryOpenOk : Bool
  tmpOpenOk : Bool
  appendOk : Bool
deriving DecidableEq

/-- `write_log` (src 61-79): write `text` to a fresh log file and return the
path; on failure retry once with the same basename under the temporary
directory; on a second failure return `None`.  Both raising primitives are
caught, so the result type carries no exception. -/
def write_log (text pre : String) (env : LogIOEnv) : Option (String × String) :=
  match pyCall env.primaryOpenOk with
  | .ok _ => some (new_log_path env.logDir pre env.ts, text)
  | .error _ =>
    match pyCall env.tmpOpenOk with
    | .ok _ => some (env.tmpDir ++ "/" ++ pre ++ "_" ++ env.ts ++ ".log", text)
    | .error _ => none

/-- `append_to_log` (src 81-86): append to the file at `path`, swallowing
any failure.  The result is the file content after the call. -/
def append_to_log (path text fileContents : String) (env : LogIOEnv) : String :=
  match pyCall env.appendOk with
  | .ok _ => fileContents ++ text
  | .error _ => fileContents

/-! ### mpremote invocation (`run_mpremote_inprocess` src 151-194,
`run_mpremote_sync` src 196-239). -/

/-- The `code` attribute of a Python SystemExit: `None`, an int, or a
string.  (ASCII digit strings model `str.isdigit`.) -/
inductive PyExitCode
  | codeNone
  | codeInt (n : Int)
  | codeStr (s : List Char)
deriving DecidableEq

/-- Python `int(s)` on an all-digit ASCII string. -/
def intOfDigits (s : List Char) : Int :=
  Int.ofNat (s.foldl (fun acc c => acc * 10 + (c.toNat - 48)) 0)

/-- The SystemExit handler (src 172-177):
`rc = int(se.code) if (se.code is not None and str(se.code).isdigit()) else (0 if se.code is None else 1)`.
For an int code, `str(n).isdigit()` holds exactly when `n` is nonnegative
(a sign character fails `isdigit`), and `int(str(n)) = n`; for a string
code, an all-digit nonempty string converts, everything else yields 1. -/
def rcOfExit : PyExitCode → Int
  | .codeNone => 0
  | .codeInt n => if 0 ≤ n then n else 1
  | .codeStr s => if s ≠ [] ∧ s.all Char.isDigit then intOfDigits s else 1

/-- What `runpy.run_module("mpremote", ...)` does on a given run: return
normally, call `sys.exit`, raise an `Exception`-derived error (carrying its
formatted traceback), or raise a BaseException that is not SystemExit and
not Exception-derived (e.g. KeyboardInterrupt). -/
inductive RunpyOutcome
  | normal
  | sysExit (c : PyExitCode)
  | raiseExn (tb : String)
  | raiseBase
deriving DecidableEq

/-- Behaviour of one mpremote invocation: its outcome, the text it writes to
the captured stdout and stderr buffers, whether writing the invocation log
file succeeds, and the path ingredients for that log file. -/
structure MpEnv where
  outcome : RunpyOutcome
  outText : String
  errText : String
  logWriteOk : Bool
  logDir : String
  ts : String
deriving DecidableEq

/-- The process-wide state `run_mpremote_inprocess` mutates: `sys.argv` and
the stream objects bound to `sys.stdout` / `sys.stderr` (identified by
opaque handles). -/
structure SysState where
  argv : List String
  stdoutHandle : Nat
  stderrHandle : Nat
deriving DecidableEq

/-- The `(rc, output, logpath)` triple (plus whether the log write at
src 188-193 succeeded). -/
structure MpResult where
  rc : Int
  output : String
  logPath : String
  logWritten : Bool
deriving DecidableEq

/-- src 180: header written before the traceback of an uncaught
Exception-derived error. -/
def tbHeader : String := "\nUNCAUGHT EXCEPTION IN mpremote:\n"

/-- The process state installed at src 165-167: `sys.argv = argv_list[:]`
and fresh StringIO objects (hence handles different from the saved ones)
bound to `sys.stdout` and `sys.stderr`. -/
def inprocessSwappedState (argv_list : List String) (s : SysState) : SysState :=
  { argv := argv_list
    stdoutHandle := s.stdoutHandle + 1
    stderrHandle := s.stderrHandle + 2 }

/-- `run_mpremote_inprocess` (src 151-194).  The old argv/stdout/stderr are
saved (src 160-162), the swapped state of `inprocessSwappedState` is
installed (src 165-167), the module runs, and the `finally` block restores
the saved values and returns on every path (src 182-194).  rc stays 0 on a
normal return; the SystemExit handler computes `rcOfExit`; the
`except Exception` handler sets rc to 1 and appends the traceback to the
stderr buffer (src 178-181); a BaseException that is neither of these is
caught by no handler, but the `return` inside `finally` discards the
in-flight exception (Python semantics), so the call still returns with the
initial rc 0 and no traceback.  `timeout_seconds` is accepted (default 900,
src 151) and never read. -/
def run_mpremote_inprocess (argv_list : List String) (timeout_seconds : Nat)
    (env : MpEnv) (s0 : SysState) : MpResult × SysState :=
  let logpath := new_log_path env.logDir "mpremote" env.ts
  let saved := s0
  let _during := inprocessSwappedState argv_list s0
  let sioErr : String :=
    match env.outcome with
    | .raiseExn tb => env.errText ++ tbHeader ++ tb
    | _ => env.errText
  let rc : Int :=
    match env.outcome with
    | .normal => 0
    | .sysExit c => rcOfExit c
    | .raiseExn _ => 1
    | .raiseBase => 0
  let outText := env.outText ++ "\n" ++ sioErr
  let restored : SysState :=
    { argv := saved.argv, stdoutHandle := saved.stdoutHandle, stderrHandle := saved.stderrHandle }
  (⟨rc, outText, logpath, env.logWriteOk⟩, restored)

/-- The argument vector built at src 202-204. -/
def syncArgv (local_path : String) (port : Option String) : List String :=
  ["mpremote", "connect", port.getD "auto", "fs", "sync", local_path, ":"]

/-- `run_mpremote_sync` (src 196-239): builds the argv and calls the
in-process runner inside a try block whose except branch (src 211-239) is
the subprocess fallback.  `run_mpremote_inprocess` returns on every path
(its `finally` block ends in `return`), so the fallback is unreachable and
the wrapper is exactly the in-process call with the default timeout. -/
def run_mpremote_sync (local_path : String) (port : Option String)
    (env : MpEnv) (s : SysState) : MpResult × SysState :=
  run_mpremote_inprocess (syncArgv local_path port) 900 env s

/-- A process state before an invocation. -/
def sysBefore : SysState := { argv := ["pico_updater.py"], stdoutHandle := 0, stderrHandle := 10 }

/-- An invocation during which mpremote raises a non-SystemExit
BaseException (e.g. KeyboardInterrupt) having written nothing. -/
def envBaseExn : MpEnv :=
  { outcome := .raiseBase
    outText := ""
    errText := ""
    logWriteOk := true
    logDir := "LOGS"
    ts := "20250101_000000" }

/-- The argv of a sync invocation, for concrete runs. -/
def argvMp : List String := ["mpremote", "connect", "auto", "fs", "sync", "/tmp/kettle", ":"]

/-! ## Theorems -/

/-- C1 (counterexample).  The claim says the terminal outcome is classified
from the sync status code and the pre/post listing diff, with status 0 and a
nonempty diff giving Done(Changed) and status 0 with an empty diff giving
the distinct Done(Unchanged).  Take two runs with sync status 0, one whose
device listing gains `b.py` and one whose listing is unchanged: the rule in
the claim classifies them differently (`doneChanged` vs `doneUnchanged`),
but the code produces literally identical terminal results for both — its
only device operation is the sync itself (no listing is ever taken), and
both runs end in the same success branch. -/
theorem C1_counterexample :
    worker envChangedRun = worker envUnchangedRun ∧
    (worker envChangedRun).devOps = [DevOp.mpremoteSync] ∧
    (worker envChangedRun).outcome = Outcome.doneOk ∧
    specClassify 0 ["a.py"] ["a.py", "b.py"] = SpecOutcome.doneChanged ∧
    specClassify 0 ["a.py"] ["a.py"] = SpecOutcome.doneUnchanged ∧
    SpecOutcome.doneChanged ≠ SpecOutcome.doneUnchanged := by
  decide

/-- C1 (amended).  The terminal outcome of a run that reaches the sync stage
is classified from the sync status code alone: status 0 gives the success
outcome and a nonzero status gives the failure outcome.  The worker takes no
pre/post device listing (its whole result is independent of the device-side
listings, and its device-operation trace never contains a listing), so a
Changed/Unchanged distinction does not exist. -/
theorem C1_theorem (env : RunEnv) (d sub : String) (ds pre post : List String) :
    (worker { env with downloadOk := true, extractOk := true,
                       topDirs := d :: ds, subfolder := none }).outcome
      = (if env.syncRc = 0 then Outcome.doneOk else Outcome.syncFailed) ∧
    (worker { env with downloadOk := true, extractOk := true, topDirs := d :: ds,
                       subfolder := some sub, subfolderPresent := true }).outcome
      = (if env.syncRc = 0 then Outcome.doneOk else Outcome.syncFailed) ∧
    worker { env with devicePreListing := pre, devicePostListing := post } = worker env ∧
    (worker env).devOps.contains DevOp.mpremoteLs = false := by
  obtain ⟨dl, ex, td, sf, sp, rc, dpre, dpost⟩ := env
  refine ⟨rfl, rfl, rfl, ?_⟩
  cases dl <;> cases ex <;> cases td <;> cases sf <;> cases sp <;>
    simp [worker, download_github_zip, afterFetch, runSync]

/-- C2 (code bug).  On the run whose downloaded zip extracts to zero
top-level directories, `download_github_zip` raises at src 147 without
deleting the fresh temporary directory (unlike the download and extraction
failure handlers at src 135 and 142), and the worker-local `tmpdir` is still
`None` when the cleanup at src 349-354 runs, so the ephemeral working
directory survives the run.  Every other terminal path does delete it. -/
theorem C2_theorem :
    (worker envLayoutRun).tmpdirLeft = true ∧
    (worker envLayoutRun).outcome = Outcome.exnFailed ∧
    (worker envLayoutRun).errMsg = some layoutErrMsg ∧
    (worker envChangedRun).tmpdirLeft = false ∧
    (worker envDownloadFailRun).tmpdirLeft = false ∧
    (worker envSubMissingRun).tmpdirLeft = false ∧
    (worker { envChangedRun with syncRc := 1 }).tmpdirLeft = false := by
  decide

/-- C4 (confirmed).  With exactly one top-level directory `d` in the
extracted archive, `download_github_zip` resolves `d` as the root; with zero
top-level directories it fails with the layout error; and a run requesting a
subfolder absent from the tree raises an error naming that subfolder before
any device operation is issued — the sync path is never silently set to the
root. -/
theorem C4_theorem (env : RunEnv) (d sub : String) :
    download_github_zip { env with downloadOk := true, extractOk := true,
                                   topDirs := [d] } = .ok d ∧
    download_github_zip { env with downloadOk := true, extractOk := true,
                                   topDirs := [] } = .error (layoutErrMsg, true) ∧
    (let e3 : RunEnv := { env with downloadOk := true, extractOk := true, topDirs := [d],
                                   subfolder := some sub, subfolderPresent := false }
     (worker e3).outcome = Outcome.exnFailed ∧
     (worker e3).errMsg = some (subfolderErrMsg sub) ∧
     (worker e3).devOps = [] ∧
     (worker e3).syncPath = none) := by
  exact ⟨rfl, rfl, rfl, rfl, rfl, rfl⟩

/-- C5 (code bug).  The in-process invocation — the path every sync takes —
accepts `timeout_seconds` (default 900, src 151) but never reads it: its
whole result is independent of the value, so nothing converts a
long-running or hung mpremote run into a timeout failure there.  (The only
enforced 900-second bound sits on the subprocess fallback at src 224, which
is unreachable because the in-process call returns on every path.) -/
theorem C5_theorem (argv : List String) (t1 t2 : Nat) (env : MpEnv) (s : SysState) :
    run_mpremote_inprocess argv t1 env s = run_mpremote_inprocess argv t2 env s := rfl

/-- C9 (confirmed).  `run_mpremote_inprocess` swaps `sys.argv` to the given
argument vector and `sys.stdout`/`sys.stderr` to fresh capture buffers for
the duration of the call, and its `finally` block (src 182-186) restores the
saved values before returning — on every path, SystemExit and other raised
errors included (the model computes rc by cases on every possible runpy
outcome and reaches the same restore).  The process state after the call is
exactly the state before it. -/
theorem C9_theorem (argv : List String) (t : Nat) (env : MpEnv) (s : SysState) :
    (run_mpremote_inprocess argv t env s).2 = s ∧
    (inprocessSwappedState argv s).argv = argv ∧
    (inprocessSwappedState argv s).stdoutHandle ≠ s.stdoutHandle ∧
    (inprocessSwappedState argv s).stderrHandle ≠ s.stderrHandle := by
  refine ⟨rfl, rfl, ?_, ?_⟩ <;> simp [inprocessSwappedState]

/-- C10 (counterexample).  The claim says any exception other than a
SystemExit yields rc 1 with the traceback appended to the captured output.
But a BaseException that is not SystemExit and not Exception-derived
(e.g. KeyboardInterrupt raised inside mpremote) matches neither handler:
the `return` inside the `finally` block swallows it, rc keeps its initial
value 0, and no traceback is written — the run is reported as a success. -/
theorem C10_counterexample :
    (run_mpremote_inprocess argvMp 900 envBaseExn sysBefore).1.rc = 0 ∧
    (run_mpremote_inprocess argvMp 900 envBaseExn sysBefore).1.output = "\n" := by
  decide

/-- C10 (amended).  `run_mpremote_inprocess` always returns a
`(rc, output, logpath)` triple and never propagates an exception; a
SystemExit with code `None` yields rc 0, a SystemExit whose code has an
all-digit string form yields that integer, any other SystemExit code yields
rc 1, and an Exception-derived error yields rc 1 with the traceback appended
to the captured output — but a non-SystemExit BaseException is swallowed by
the `return` in the `finally` block and yields rc 0 with no traceback.
Consequently the subprocess fallback of `run_mpremote_sync` is never taken:
the wrapper returns exactly the in-process result. -/
theorem C10_theorem (argv : List String) (t : Nat) (env : MpEnv) (s : SysState)
    (tb lp : String) (port : Option String) :
    (run_mpremote_inprocess argv t env s).1.rc =
      (match env.outcome with
       | .normal => 0
       | .sysExit c => rcOfExit c
       | .raiseExn _ => 1
       | .raiseBase => 0) ∧
    (run_mpremote_inprocess argv t { env with outcome := .raiseExn tb } s).1.output
      = env.outText ++ "\n" ++ (env.errText ++ tbHeader ++ tb) ∧
    rcOfExit .codeNone = 0 ∧
    rcOfExit (.codeInt 7) = 7 ∧
    rcOfExit (.codeInt (-1)) = 1 ∧
    rcOfExit (.codeStr "007".data) = 7 ∧
    rcOfExit (.codeStr "exit1".data) = 1 ∧
    rcOfExit (.codeStr []) = 1 ∧
    run_mpremote_sync lp port env s = run_mpremote_inprocess (syncArgv lp port) 900 env s := by
  refine ⟨rfl, rfl, by decide, by decide, by decide, by decide, by decide, by decide, rfl⟩

/-- C6 (confirmed).  `write_log` creates a new log file and returns its
path; when that fails it retries exactly once with the temporary-directory
fallback path, and when the retry also fails it returns the failure
indicator `none` — both raising primitives are caught, so by its result
type nothing escapes to the caller.  `append_to_log` appends on success and
swallows the failure otherwise, leaving the file as it was, on every input. -/
theorem C6_theorem (text pre path fileContents : String) (env : LogIOEnv) :
    write_log text pre env =
      (if env.primaryOpenOk then some (new_log_path env.logDir pre env.ts, text)
       else if env.tmpOpenOk then
         some (env.tmpDir ++ "/" ++ pre ++ "_" ++ env.ts ++ ".log", text)
       else none) ∧
    append_to_log path text fileContents env =
      (if env.appendOk then fileContents ++ text else fileContents) := by
  obtain ⟨ld, td, ts, p1, p2, ap⟩ := env
  cases p1 <;> cases p2 <;> cases ap <;>
    simp [write_log, append_to_log, pyCall]

/-- C7 (counterexample).  The claim says directory selection walks three
tiers — system location, per-user directory, process-temporary directory —
each only after the previous one fails a write-probe, and returns a writable
directory.  In the environment where the preferred location fails its
write-probe and the per-user directory can be created but is itself
unwritable, `get_log_dir` nevertheless returns the per-user directory: the
fallback is returned without any write-probe, and no temporary-directory
tier exists in `get_log_dir` at all. -/
theorem C7_counterexample :
    get_log_dir envLogDirProbeFail = .ok userLogDir ∧
    envLogDirProbeFail.openWriteOk (userLogDir ++ "/.write_test") = false ∧
    userLogDir ≠ tmpDirPath := by
  refine ⟨rfl, rfl, by decide⟩

/-- C7 (amended).  `get_log_dir` has two tiers, not three: it returns the
preferred location (the fixed system path on Windows, the per-user path
elsewhere) exactly when that location passes the full makedirs /
write-probe / remove sequence; otherwise it returns the per-user directory
whenever makedirs succeeds there, with no write-probe on that tier, and
raises when even that fails.  No process-temporary directory is ever
selected (the temporary directory appears only inside `write_log`). -/
theorem C7_theorem (env : LogDirEnv) :
    get_log_dir env =
      (if env.makedirsOk (preferredDir env)
          && env.openWriteOk (preferredDir env ++ "/.write_test")
          && env.removeOk (preferredDir env ++ "/.write_test")
       then .ok (preferredDir env)
       else if env.makedirsOk userLogDir then .ok userLogDir
       else .error PyExn.ioError) ∧
    get_log_dir env ≠ .ok tmpDirPath := by
  obtain ⟨nt, mk, ow, rm⟩ := env
  have heq :
      get_log_dir ⟨nt, mk, ow, rm⟩ =
        (if mk (preferredDir ⟨nt, mk, ow, rm⟩)
            && ow (preferredDir ⟨nt, mk, ow, rm⟩ ++ "/.write_test")
            && rm (preferredDir ⟨nt, mk, ow, rm⟩ ++ "/.write_test")
         then .ok (preferredDir ⟨nt, mk, ow, rm⟩)
         else if mk userLogDir then .ok userLogDir
         else .error PyExn.ioError) := by
    cases h1 : mk (preferredDir ⟨nt, mk, ow, rm⟩) <;>
      cases h2 : ow (preferredDir ⟨nt, mk, ow, rm⟩ ++ "/.write_test") <;>
      cases h3 : rm (preferredDir ⟨nt, mk, ow, rm⟩ ++ "/.write_test") <;>
      cases h4 : mk userLogDir <;>
      simp [get_log_dir, getLogDirProbe, pyCall, h1, h2, h3, h4]
  refine ⟨heq, ?_⟩
  rw [heq]
  split
  · cases nt <;> simp [preferredDir, winLogDir, userLogDir, tmpDirPath]
  · split <;> simp [userLogDir, tmpDirPath]

/-- C8 (confirmed).  The device locator includes an enumerated candidate
exactly when its vendor id is in the fixed known-good set or, otherwise, its
case-folded concatenated description contains one of the fixed keywords
(first match wins in the loop; the result is the criterion filter in
enumeration order); any enumeration failure gives the empty sequence; and
the orchestrator always takes the first entry, falling back to the `auto`
target when the sequence is empty. -/
theorem C8_theorem (ports : List PortInfo) (u : Unit) (d : List Char)
    (ds : List (List Char)) :
    detect_kettle_ports (.ok ports) = (ports.filter specPortCriterion).map PortInfo.device ∧
    detect_kettle_ports (.error u) = [] ∧
    sync_target (choose_port (d :: ds)) = d ∧
    sync_target (choose_port []) = "auto".data := by
  refine ⟨?_, rfl, rfl, rfl⟩
  show detectLoop ports = (ports.filter specPortCriterion).map PortInfo.device
  induction ports with
  | nil => rfl
  | cons p ps ih =>
    cases hv : p.vid with
    | none =>
      cases hk : kwHit p <;>
        simp [detectLoop, specPortCriterion, hv, hk, List.filter_cons, ih]
    | some v =>
      by_cases hm : v ∈ kettleVids <;> cases hk : kwHit p <;>
        simp [detectLoop, specPortCriterion, hv, hm, hk, List.filter_cons, ih]

/-! ### Helper lemmas about the normalization model (for C3) -/

theorem dropWhile_self_idem (p : Char → Bool) (l : List Char) :
    List.dropWhile p (List.dropWhile p l) = List.dropWhile p l := by
  induction l with
  | nil => rfl
  | cons a l ih =>
    cases hp : p a
    · simp [List.dropWhile_cons, hp]
    · simp [List.dropWhile_cons, hp, ih]

theorem rstripSlash_idem (s : List Char) :
    rstripSlash (rstripSlash s) = rstripSlash s := by
  unfold rstripSlash
  rw [List.reverse_reverse, dropWhile_self_idem]

theorem rstripSlash_pre (s : List Char) : rstripSlash s <+: s := by
  rw [← List.reverse_suffix]
  unfold rstripSlash
  rw [List.reverse_reverse]
  exact List.dropWhile_suffix _

/-- `pyIn` is exactly substring containment. -/
theorem pyIn_true_iff (pat s : List Char) : pyIn pat s = true ↔ pat <:+: s := by
  induction s with
  | nil => simp [pyIn, List.infix_nil, List.isEmpty_iff]
  | cons c cs ih => simp [pyIn, List.infix_cons_iff, ih, List.isPrefixOf_iff_prefix]

theorem pyIn_false_mono (pat x y : List Char) (hxy : x <+: y)
    (h : pyIn pat y = false) : pyIn pat x = false := by
  cases hx : pyIn pat x
  · rfl
  · have hin : pat <:+: y := ((pyIn_true_iff pat x).mp hx).trans hxy.isInfix
    rw [(pyIn_true_iff pat y).mpr hin] at h
    exact absurd h (by simp)

/-- Scanning a list with no occurrence of the marker changes nothing
(regardless of fuel: exhausted fuel also returns the input unchanged). -/
theorem replaceSshAux_id_of_not_in (fuel : Nat) (s : List Char)
    (h : pyIn sshPre s = false) : replaceSshAux fuel s = s := by
  induction fuel generalizing s with
  | zero => rfl
  | succ n ih =>
    cases s with
    | nil => rfl
    | cons c cs =>
      rw [pyIn, Bool.or_eq_false_iff] at h
      simp [replaceSshAux, h.1, ih cs h.2]

/-- One replace step on a list that starts with the marker. -/
theorem replaceSsh_sshPre_append (Q : List Char) (h : pyIn sshPre Q = false) :
    replaceSsh (sshPre ++ Q) = webPre ++ Q := by
  unfold replaceSsh
  have hlen : (sshPre ++ Q).length = Q.length + 14 + 1 := by
    simp [sshPre]
  rw [hlen]
  have hpre : sshPre.isPrefixOf ('g' :: (sshTail ++ Q)) = true := by
    rw [show ('g' :: (sshTail ++ Q)) = sshPre ++ Q from rfl,
        List.isPrefixOf_iff_prefix]
    exact List.prefix_append _ _
  rw [show sshPre ++ Q = 'g' :: (sshTail ++ Q) from rfl]
  simp only [replaceSshAux, hpre, if_true]
  rw [List.drop_left' (show sshTail.length = 14 from rfl),
      replaceSshAux_id_of_not_in _ _ h]

theorem replaceSsh_sshPre_append_ex (Q : List Char) :
    ∃ t, replaceSsh (sshPre ++ Q) = webPre ++ t := by
  refine ⟨replaceSshAux (Q.length + 14) Q, ?_⟩
  unfold replaceSsh
  have hlen : (sshPre ++ Q).length = Q.length + 14 + 1 := by
    simp [sshPre]
  rw [hlen]
  have hpre : sshPre.isPrefixOf ('g' :: (sshTail ++ Q)) = true := by
    rw [show ('g' :: (sshTail ++ Q)) = sshPre ++ Q from rfl,
        List.isPrefixOf_iff_prefix]
    exact List.prefix_append _ _
  rw [show sshPre ++ Q = 'g' :: (sshTail ++ Q) from rfl]
  simp only [replaceSshAux, hpre, if_true]
  rw [List.drop_left' (show sshTail.length = 14 from rfl)]

/-- The replacement never reintroduces the marker at the front: the web
form starts with a different character. -/
theorem not_sshPre_isPrefixOf_webPre_append (t : List Char) :
    sshPre.isPrefixOf (webPre ++ t) = false := by
  have hgh : (('g' : Char) == 'h') = false := by decide
  simp [sshPre, webPre, List.isPrefixOf, hgh]

/-- A normalized reference never starts with the SSH marker. -/
theorem normalize_repo_not_sshPre (u : List Char) :
    sshPre.isPrefixOf (normalize_repo u) = false := by
  cases hx : sshPre.isPrefixOf (normalize_repo u)
  · rfl
  · exfalso
    have hp : sshPre <+: normalize_repo u := List.isPrefixOf_iff_prefix.mp hx
    have hpw : normalize_repo u <+: sshRewrite (stripGit u) :=
      rstripSlash_pre (sshRewrite (stripGit u))
    have hw : sshPre <+: sshRewrite (stripGit u) := hp.trans hpw
    cases hg : sshPre.isPrefixOf (stripGit u)
    · rw [show sshRewrite (stripGit u) = stripGit u from by simp [sshRewrite, hg]] at hw
      rw [List.isPrefixOf_iff_prefix.mpr hw] at hg
      exact absurd hg (by decide)
    · obtain ⟨Q, hQ⟩ := List.isPrefixOf_iff_prefix.mp hg
      rw [show sshRewrite (stripGit u) = replaceSsh (stripGit u) from by
            simp [sshRewrite, hg], ← hQ] at hw
      obtain ⟨t, hts⟩ := replaceSsh_sshPre_append_ex Q
      rw [hts] at hw
      have hc := List.isPrefixOf_iff_prefix.mpr hw
      rw [not_sshPre_isPrefixOf_webPre_append] at hc
      exact Bool.false_ne_true hc

/-- A suffix of an appended list no longer than the right part is a suffix
of the right part. -/
theorem suffix_of_suffix_append (s A P : List Char) (h : s <:+ A ++ P)
    (hl : s.length ≤ P.length) : s <:+ P := by
  obtain ⟨t, ht⟩ := h
  have hlt : A.length ≤ t.length := by
    have hL := congrArg List.length ht
    simp at hL
    omega
  have hdrop : (t ++ s).drop t.length = (A ++ P).drop t.length := by rw [ht]
  rw [List.drop_left, List.drop_append_eq_append_drop,
      List.drop_eq_nil_iff.mpr hlt, List.nil_append] at hdrop
  rw [hdrop]
  exact List.drop_suffix _ _

/-- The boundary between "git@github.com:" and a short remainder never
spells ".git". -/
theorem gitSuf_not_suffix_sshPre_append (P : List Char) (hlen : P.length < 4) :
    ¬ gitSuf <:+ sshPre ++ P := by
  intro h
  obtain ⟨t, ht⟩ := h
  have hlt : t.length = 11 + P.length := by
    have hL := congrArg List.length ht
    simp [gitSuf, sshPre] at hL
    omega
  have hdrop : (t ++ gitSuf).drop t.length = (sshPre ++ P).drop t.length := by rw [ht]
  rw [List.drop_left, List.drop_append_eq_append_drop] at hdrop
  have hz : t.length - sshPre.length = 0 := by simp [sshPre]; omega
  rw [hz, List.drop_zero] at hdrop
  have hsplit : P.length = 0 ∨ P.length = 1 ∨ P.length = 2 ∨ P.length = 3 := by omega
  rcases hsplit with h0 | h0 | h0 | h0 <;>
    · rw [h0] at hlt
      rw [hlt] at hdrop
      simp [sshPre, gitSuf] at hdrop

/-- The boundary between "https://github.com/" and a short remainder never
spells ".git". -/
theorem gitSuf_not_suffix_webPre_append (P : List Char) (hlen : P.length < 4) :
    ¬ gitSuf <:+ webPre ++ P := by
  intro h
  obtain ⟨t, ht⟩ := h
  have hlt : t.length = 15 + P.length := by
    have hL := congrArg List.length ht
    simp [gitSuf, webPre] at hL
    omega
  have hdrop : (t ++ gitSuf).drop t.length = (webPre ++ P).drop t.length := by rw [ht]
  rw [List.drop_left, List.drop_append_eq_append_drop] at hdrop
  have hz : t.length - webPre.length = 0 := by simp [webPre]; omega
  rw [hz, List.drop_zero] at hdrop
  have hsplit : P.length = 0 ∨ P.length = 1 ∨ P.length = 2 ∨ P.length = 3 := by omega
  rcases hsplit with h0 | h0 | h0 | h0 <;>
    · rw [h0] at hlt
      rw [hlt] at hdrop
      simp [webPre, gitSuf] at hdrop

/-- Stripping ".git" commutes with prepending a block that cannot
contribute to the suffix. -/
theorem stripGit_append_of (A P : List Char)
    (hb : ∀ Q : List Char, Q.length < 4 → ¬ gitSuf <:+ A ++ Q) :
    stripGit (A ++ P) = A ++ stripGit P := by
  by_cases hP : gitSuf <:+ P
  · have h4 : 4 ≤ P.length := by
      have := hP.length_le
      simpa [gitSuf] using this
    have hAP : gitSuf <:+ A ++ P := hP.trans (List.suffix_append A P)
    have e1 : pyEndsWith gitSuf (A ++ P) = true := by
      rw [pyEndsWith, List.isSuffixOf_iff_suffix]
      exact hAP
    have e2 : pyEndsWith gitSuf P = true := by
      rw [pyEndsWith, List.isSuffixOf_iff_suffix]
      exact hP
    rw [stripGit, stripGit, e1, e2, if_pos rfl, if_pos rfl]
    have hlen4 : (A ++ P).length - 4 = A.length + (P.length - 4) := by
      simp [List.length_append]
      omega
    rw [hlen4, List.take_append]
  · have hAP : ¬ gitSuf <:+ A ++ P := by
      intro hc
      by_cases h4 : 4 ≤ P.length
      · exact hP (suffix_of_suffix_append _ _ _ hc (by simp [gitSuf]; omega))
      · exact hb P (by omega) hc
    simp [stripGit, pyEndsWith, List.isSuffixOf_iff_suffix, hP, hAP]

/-! ### C3 theorems -/

/-- C3 (counterexample).  Normalization is not idempotent: the reference
"https://github.com/user/repo.git/" normalizes to ".../repo.git" (the
trailing slash hides the suffix on the first pass), and normalizing that
result strips ".git" again.  Nor do an SSH-style reference and its
equivalent web reference always normalize alike: when the remainder itself
contains the marker, the replace call rewrites every occurrence on the SSH
side and none on the web side. -/
theorem C3_counterexample :
    normalize_repo (normalize_repo "https://github.com/user/repo.git/".data) ≠
      normalize_repo "https://github.com/user/repo.git/".data ∧
    normalize_repo (sshPre ++ "a/git@github.com:b".data) ≠
      normalize_repo (webPre ++ "a/git@github.com:b".data) := by
  constructor <;> decide

/-- C3 (amended).  Normalization is idempotent on every reference whose
normalized form does not end in ".git" (a trailing slash or a doubled
suffix can leave ".git" exposed after one pass, and only then does a second
pass differ); and an SSH-style reference and its equivalent web reference
normalize to the same value whenever the part after the marker does not
itself contain the marker. -/
theorem C3_theorem (u P : List Char)
    (h1 : pyEndsWith gitSuf (normalize_repo u) = false)
    (h2 : pyIn sshPre P = false) :
    normalize_repo (normalize_repo u) = normalize_repo u ∧
    normalize_repo (sshPre ++ P) = normalize_repo (webPre ++ P) := by
  constructor
  · have s1 : stripGit (normalize_repo u) = normalize_repo u := by
      simp [stripGit, h1]
    have s2 : sshRewrite (normalize_repo u) = normalize_repo u := by
      simp [sshRewrite, normalize_repo_not_sshPre u]
    calc normalize_repo (normalize_repo u)
        = rstripSlash (sshRewrite (stripGit (normalize_repo u))) := rfl
      _ = rstripSlash (normalize_repo u) := by rw [s1, s2]
      _ = normalize_repo u := rstripSlash_idem (sshRewrite (stripGit u))
  · have hQpre : stripGit P <+: P := by
      unfold stripGit
      split
      · exact List.take_prefix _ _
      · exact List.prefix_refl _
    have hQ : pyIn sshPre (stripGit P) = false :=
      pyIn_false_mono _ _ _ hQpre h2
    have hssh : stripGit (sshPre ++ P) = sshPre ++ stripGit P :=
      stripGit_append_of _ _ gitSuf_not_suffix_sshPre_append
    have hweb : stripGit (webPre ++ P) = webPre ++ stripGit P :=
      stripGit_append_of _ _ gitSuf_not_suffix_webPre_append
    have hg1 : sshRewrite (sshPre ++ stripGit P) = webPre ++ stripGit P := by
      have hpre : sshPre.isPrefixOf (sshPre ++ stripGit P) = true := by
        rw [List.isPrefixOf_iff_prefix]
        exact List.prefix_append _ _
      rw [sshRewrite, hpre, if_pos rfl, replaceSsh_sshPre_append _ hQ]
    have hg2 : sshRewrite (webPre ++ stripGit P) = webPre ++ stripGit P := by
      rw [sshRewrite, not_sshPre_isPrefixOf_webPre_append]
      simp
    calc normalize_repo (sshPre ++ P)
        = rstripSlash (sshRewrite (sshPre ++ stripGit P)) := by
          rw [normalize_repo, hssh]
      _ = rstripSlash (webPre ++ stripGit P) := by rw [hg1]
      _ = rstripSlash (sshRewrite (webPre ++ stripGit P)) := by rw [hg2]
      _ = normalize_repo (webPre ++ P) := by rw [normalize_repo, hweb]

/-- C3 (witness).  A well-formed already-normalized web reference is a
fixed point of normalization, and the corresponding SSH and web references
normalize identically, with both side conditions discharged concretely. -/
theorem C3_witness :
    pyEndsWith gitSuf (normalize_repo "https://github.com/user/repo.git".data) = false ∧
    pyIn sshPre "user/repo.git".data = false ∧
    (normalize_repo (normalize_repo "https://github.com/user/repo.git".data) =
       normalize_repo "https://github.com/user/repo.git".data ∧
     normalize_repo (sshPre ++ "user/repo.git".data) =
       normalize_repo (webPre ++ "user/repo.git".data)) :=
  ⟨by decide, by decide,
   C3_theorem "https://github.com/user/repo.git".data "user/repo.git".data
     (by decide) (by decide)⟩

end KettleUpdater
